import Mathlib

/-!
# Verification of the nascast media-library identification engine

This file shallowly embeds the core of the `nascast` repository
(src/movie.rs, src/tv.rs, src/cache.rs, src/search.rs, src/main.rs)
and proves properties of the embedding.

Strings are modelled as lists of Unicode scalar values (`Str := List Nat`);
this agrees with Rust `char` sequences, and byte indices coincide with
character indices on ASCII inputs, which is what all the patterns in the
source manipulate.

The Rust code matches `regex::Regex` patterns.  The `regex` crate uses
leftmost-first match semantics (the match starting at the earliest
position wins, and at that position capture groups are resolved in the
same preference order a Perl-style backtracking engine would use:
alternations prefer their left branch, greedy repetitions prefer longer,
lazy repetitions prefer shorter).  The embedding implements exactly these
semantics with an explicit backtracking matcher over a small regex AST;
every pattern string of the source is transcribed into that AST.
`\p{L}` (any Unicode letter) is modelled as ASCII letters together with
all code points ≥ 128, `\s` and `trim` use the ASCII whitespace set, and
case folding is ASCII case folding; all inputs handled by the claims are
ASCII, where these coincide with the Rust behaviour.
-/

/-- Characters of a Rust string, as Unicode scalar values. -/
abbrev Str := List Nat

/-- Convert a Lean string literal to the `Str` model. -/
def strOf (s : String) : Str := s.data.map Char.toNat

/-- A filesystem path, as its list of components below some root.
Mirrors Rust `PathBuf` for the paths the scanners build. -/
abbrev MPath := List Str

/-- ASCII decimal digit (`\d` in the patterns, which all operate on ASCII). -/
def isDigitC (c : Nat) : Bool := 48 ≤ c && c ≤ 57

/-- ASCII upper-case letter. -/
def isUpperC (c : Nat) : Bool := 65 ≤ c && c ≤ 90

/-- ASCII lower-case letter. -/
def isLowerC (c : Nat) : Bool := 97 ≤ c && c ≤ 122

/-- ASCII letter or digit (the `a-zA-Z0-9` part of the character classes). -/
def isAlnumC (c : Nat) : Bool := isDigitC c || isUpperC c || isLowerC c

/-- Model of `\p{L}`: ASCII letters, plus every non-ASCII code point. -/
def isLetterC (c : Nat) : Bool := isUpperC c || isLowerC c || 128 ≤ c

/-- Word character for `\w` and word boundaries (`\b`) in the `regex` crate:
letters, digits and underscore (non-ASCII modelled as in `isLetterC`). -/
def isWordC (c : Nat) : Bool := isAlnumC c || c == 95 || 128 ≤ c

/-- ASCII whitespace, modelling `char::is_whitespace` / `\s` on ASCII input. -/
def isWsC (c : Nat) : Bool := c == 32 || c == 9 || c == 10 || c == 13 || c == 11 || c == 12

/-- ASCII case folding, modelling the `(?i)` flag on ASCII input. -/
def foldC (c : Nat) : Nat := if isUpperC c then c + 32 else c

/-- The regex AST.  Only the constructs used by the patterns in the source
are present; every repetition in those patterns has a single-character
class as its body, which `rep` exploits. -/
inductive RE where
  /-- A case-sensitive literal. -/
  | lit (cs : List Nat)
  /-- A case-insensitive literal (pattern compiled under `(?i)`). -/
  | litCI (cs : List Nat)
  /-- A single-character class. -/
  | cls (p : Nat → Bool)
  /-- Concatenation. -/
  | seq (a b : RE)
  /-- Alternation; the left branch is preferred. -/
  | alt (a b : RE)
  /-- Greedy option (`a?`). -/
  | opt (a : RE)
  /-- Repetition of a character class: at least `lo` characters, at most
  `hi` (none = unbounded), lazy or greedy. -/
  | rep (p : Nat → Bool) (lo : Nat) (hi : Option Nat) (lzy : Bool)
  /-- Capture group number `i`. -/
  | grp (i : Nat) (a : RE)
  /-- Zero-width assertion on the previous and next character
  (`^`, `$`, `\b`). -/
  | assrt (f : Option Nat → Option Nat → Bool)

/-- Captured groups: group index paired with the captured characters.
The head entry for an index is its most recent capture. -/
abbrev CapList := List (Nat × Str)

/-- A matcher state: the rest of the input, the character just before it,
and the captures recorded so far. -/
abbrev MState := Str × Option Nat × CapList

/-- Consume exactly `n` characters satisfying `p`. -/
def repMinR (p : Nat → Bool) : Nat → Str → Option Nat → Option (Str × Option Nat)
  | 0, s, prev => some (s, prev)
  | n + 1, c :: rest, _ => if p c then repMinR p n rest (some c) else none
  | _ + 1, [], _ => none

/-- All ways to consume up to `n` further characters satisfying `p`, in
preference order: a greedy repetition prefers consuming more, a lazy one
prefers consuming fewer. -/
def repRes (p : Nat → Bool) (lzy : Bool) : Nat → Str → Option Nat → List (Str × Option Nat)
  | 0, s, prev => [(s, prev)]
  | n + 1, s, prev =>
    let deeper := match s with
      | c :: rest => if p c then repRes p lzy n rest (some c) else []
      | [] => []
    if lzy then (s, prev) :: deeper else deeper ++ [(s, prev)]

/-- Consume a literal, case-sensitively or after ASCII case folding. -/
def litRunR (ci : Bool) : List Nat → Str → Option Nat → Option (Str × Option Nat)
  | [], s, prev => some (s, prev)
  | c :: cs, d :: rest, _ =>
    if (if ci then foldC d == foldC c else d == c) then litRunR ci cs rest (some d) else none
  | _ :: _, [], _ => none

/-- The backtracking matcher: all states in which the pattern can finish
matching from the given state, listed in the preference order of a
Perl-style engine (alternations prefer the left branch, greedy
repetitions prefer longer, lazy repetitions prefer shorter).  The
leftmost-first match of the `regex` crate is the head of this list. -/
def reMatch : RE → Str → Option Nat → CapList → List MState
  | .lit cs, s, prev, caps =>
    match litRunR false cs s prev with
    | some (s', p') => [(s', p', caps)]
    | none => []
  | .litCI cs, s, prev, caps =>
    match litRunR true cs s prev with
    | some (s', p') => [(s', p', caps)]
    | none => []
  | .cls p, s, _, caps =>
    match s with
    | c :: rest => if p c then [(rest, some c, caps)] else []
    | [] => []
  | .seq a b, s, prev, caps =>
    (reMatch a s prev caps).flatMap (fun st => reMatch b st.1 st.2.1 st.2.2)
  | .alt a b, s, prev, caps => reMatch a s prev caps ++ reMatch b s prev caps
  | .opt a, s, prev, caps => reMatch a s prev caps ++ [(s, prev, caps)]
  | .rep p lo hi lzy, s, prev, caps =>
    match repMinR p lo s prev with
    | none => []
    | some (s', p') =>
      let fuel := match hi with | some h => h - lo | none => s'.length
      (repRes p lzy fuel s' p').map (fun sp => (sp.1, sp.2, caps))
  | .grp i a, s, prev, caps =>
    (reMatch a s prev caps).map
      (fun st => (st.1, st.2.1, (i, s.take (s.length - st.1.length)) :: st.2.2))
  | .assrt f, s, prev, caps => if f prev s.head? then [(s, prev, caps)] else []

/-- A successful match: its start position, the matched characters, and
the captured groups. -/
structure MatchInfo where
  start : Nat
  matched : Str
  caps : CapList
deriving DecidableEq, Repr

/-- Try the pattern anchored at every position from `idx` on, returning
the leftmost match (the semantics of `Regex::captures`). -/
def reTryAt (re : RE) (s : Str) (prev : Option Nat) (idx : Nat) : Option MatchInfo :=
  match (reMatch re s prev []).head? with
  | some (s', _, caps) => some ⟨idx, s.take (s.length - s'.length), caps⟩
  | none =>
    match s with
    | [] => none
    | c :: rest => reTryAt re rest (some c) (idx + 1)

/-- Model of `Regex::captures`: the leftmost match with its groups. -/
def reCaptures (re : RE) (s : Str) : Option MatchInfo := reTryAt re s none 0

/-- Capture of group `i`, if that group participated in the match. -/
def capOf (m : MatchInfo) (i : Nat) : Option Str := List.lookup i m.caps

/-! ## String helpers used by the parsers -/

/-- `str.replace(".", " ")` — every dot becomes a space. -/
def replaceDot (s : Str) : Str := s.map (fun c => if c == 46 then 32 else c)

/-- `str::trim` (ASCII whitespace model). -/
def trimStr (s : Str) : Str := ((s.dropWhile isWsC).reverse.dropWhile isWsC).reverse

/-- Numeric value of an all-digit string, otherwise `none`.  The strings
fed to the integer parsers in the source are regex captures of `\d{..}`,
which are bare digit runs. -/
def digitsVal (s : Str) : Option Nat :=
  if s ≠ [] ∧ s.all isDigitC then some (s.foldl (fun a c => a * 10 + (c - 48)) 0) else none

/-- `str::parse::<u8>` on a digit run. -/
def parseU8 (s : Str) : Option Nat :=
  (digitsVal s).bind (fun v => if v ≤ 255 then some v else none)

/-- `str::parse::<u16>` on a digit run. -/
def parseU16 (s : Str) : Option Nat :=
  (digitsVal s).bind (fun v => if v ≤ 65535 then some v else none)

/-- ASCII `str::to_lowercase`. -/
def toLowerStr (s : Str) : Str := s.map foldC

/-- `Path::file_name`: the final path component. -/
def fileNameOf (p : MPath) : Option Str := p.getLast?

/-- Index just after the last dot of `name`, provided that dot is not the
leading character (Rust's `Path` treats `".foo"` as having no extension). -/
def splitDotIdx (name : Str) : Option Nat :=
  match (name.reverse.takeWhile (fun c => c ≠ 46)).length, name.length with
  | tl, n => if tl < n ∧ n - tl > 1 then some (n - tl) else none

/-- `Path::file_stem`: final component up to its extension. -/
def fileStem (p : MPath) : Option Str :=
  (fileNameOf p).map (fun name =>
    match splitDotIdx name with
    | some i => name.take (i - 1)
    | none => name)

/-- `Path::extension`: the characters after the last (non-leading) dot of
the final component. -/
def extensionOf (p : MPath) : Option Str :=
  (fileNameOf p).bind (fun name => (splitDotIdx name).map (fun i => name.drop i))

/-! ## The regex patterns of the source

Transcriptions of `TV_PATTERNS_RE`, `SEASON_FOLDER_PATTERNS_RE`, the year
finder and name cleaner of `parse_series_folder_name`, and
`MOVIE_PATTERNS_RE`.  (In the Rust source the TV/season pattern strings
spell `\d` as a double backslash which the builder then replaces by `\d`;
the transcription is of the effective pattern.) -/

/-- `[._ ]` — the separator class. -/
def sepCls (c : Nat) : Bool := c == 46 || c == 95 || c == 32

/-- `.` — any character but a newline. -/
def anyCls (c : Nat) : Bool := c ≠ 10

/-- `[^a-zA-Z0-9\p{L}]`. -/
def notWordAlnumCls (c : Nat) : Bool := !(isAlnumC c || 128 ≤ c)

/-- `[a-zA-Z ._-]` (the name class of the compact TV pattern). -/
def compactNameCls (c : Nat) : Bool :=
  isUpperC c || isLowerC c || c == 32 || c == 46 || c == 95 || c == 45

/-- `[^\d\p{L}/]` (the tail class of the compact TV pattern). -/
def compactTailCls (c : Nat) : Bool := !(isDigitC c || isLetterC c || c == 47)

/-- `^` with no multiline flag: start of haystack. -/
def bosAss (prev : Option Nat) (_ : Option Nat) : Bool := prev.isNone

/-- `$` with no multiline flag: end of haystack. -/
def eosAss (_ : Option Nat) (nxt : Option Nat) : Bool := nxt.isNone

/-- `\b`: a word/non-word transition. -/
def wbAss (prev nxt : Option Nat) : Bool :=
  (match prev with | some c => isWordC c | none => false) !=
  (match nxt with | some c => isWordC c | none => false)

/-- Chain a list of regexes into nested `seq`s. -/
def reSeq (l : List RE) : RE := match l with
  | [] => .assrt (fun _ _ => true)
  | [r] => r
  | r :: rs => .seq r (reSeq rs)

/-- `(?:^|[^a-zA-Z0-9\p{L}])`. -/
def bareLead : RE := .alt (.assrt bosAss) (.cls notWordAlnumCls)

/-- `(?P<season>\d{1,2})` (group 2). -/
def seasonGrp : RE := .grp 2 (.rep isDigitC 1 (some 2) false)

/-- `(?P<episode>\d{1,2})` (group 3). -/
def episodeGrp : RE := .grp 3 (.rep isDigitC 1 (some 2) false)

/-- `(?i)(?P<name>.+?)[._ ]S(?P<season>\d{1,2})E(?P<episode>\d{1,2})`. -/
def tvP1 : RE := reSeq [.grp 1 (.rep anyCls 1 none true), .cls sepCls, .litCI (strOf "S"),
  seasonGrp, .litCI (strOf "E"), episodeGrp]

/-- `(?i)(?P<name>.+?)[._ ](?P<season>\d{1,2})x(?P<episode>\d{1,2})`. -/
def tvP2 : RE := reSeq [.grp 1 (.rep anyCls 1 none true), .cls sepCls,
  seasonGrp, .litCI (strOf "x"), episodeGrp]

/-- `(?i)(?:^|[^a-zA-Z0-9\p{L}])S(?P<season>\d{1,2})E(?P<episode>\d{1,2})`. -/
def tvP3 : RE := reSeq [bareLead, .litCI (strOf "S"), seasonGrp, .litCI (strOf "E"), episodeGrp]

/-- `(?i)(?:^|[^a-zA-Z0-9\p{L}])(?P<season>\d{1,2})x(?P<episode>\d{1,2})`. -/
def tvP4 : RE := reSeq [bareLead, seasonGrp, .litCI (strOf "x"), episodeGrp]

/-- `(?i)(?P<name>.+?)[._ ]E(?P<episode>\d{1,2})`. -/
def tvP5 : RE := reSeq [.grp 1 (.rep anyCls 1 none true), .cls sepCls, .litCI (strOf "E"), episodeGrp]

/-- `(?i)(?P<name>.+?)[._ ]Episode[._ ](?P<episode>\d{1,2})`. -/
def tvP6 : RE := reSeq [.grp 1 (.rep anyCls 1 none true), .cls sepCls, .litCI (strOf "Episode"),
  .cls sepCls, episodeGrp]

/-- `(?i)(?:^|[^a-zA-Z0-9\p{L}])E(?P<episode>\d{1,2})`. -/
def tvP7 : RE := reSeq [bareLead, .litCI (strOf "E"), episodeGrp]

/-- `(?i)(?:^|[^a-zA-Z0-9\p{L}])Episode[._ ](?P<episode>\d{1,2})`. -/
def tvP8 : RE := reSeq [bareLead, .litCI (strOf "Episode"), .cls sepCls, episodeGrp]

/-- `(?i)(?P<name>[a-zA-Z ._-]+?)(?P<season>\d{2})(?P<episode>\d{2})[^\d\p{L}/]*$`. -/
def tvP9 : RE := reSeq [.grp 1 (.rep compactNameCls 1 none true),
  .grp 2 (.rep isDigitC 2 (some 2) false), .grp 3 (.rep isDigitC 2 (some 2) false),
  .rep compactTailCls 0 none false, .assrt eosAss]

/-- The nine TV filename patterns, in the priority order of the source. -/
def TV_PATTERNS_RE : List RE := [tvP1, tvP2, tvP3, tvP4, tvP5, tvP6, tvP7, tvP8, tvP9]

/-- `(?i)^S(?:eason)?[._ ]?(?P<season>\d{1,2})$`. -/
def seasonFolderP1 : RE := reSeq [.assrt bosAss, .litCI (strOf "S"), .opt (.litCI (strOf "eason")),
  .opt (.cls sepCls), seasonGrp, .assrt eosAss]

/-- `(?i)(?P<name>.+?)[._ ]S(?:eason)?[._ ]?(?P<season>\d{1,2})`. -/
def seasonFolderP2 : RE := reSeq [.grp 1 (.rep anyCls 1 none true), .cls sepCls,
  .litCI (strOf "S"), .opt (.litCI (strOf "eason")), .opt (.cls sepCls), seasonGrp]

/-- The two season-folder patterns, in the priority order of the source. -/
def SEASON_FOLDER_PATTERNS_RE : List RE := [seasonFolderP1, seasonFolderP2]

/-- `(?:\(|\[|\b)(\d{4})(?:\)|\]|\b)` — the year finder. -/
def yearFinderRE : RE := reSeq [
  .alt (.lit (strOf "(")) (.alt (.lit (strOf "[")) (.assrt wbAss)),
  .grp 1 (.rep isDigitC 4 (some 4) false),
  .alt (.lit (strOf ")")) (.alt (.lit (strOf "]")) (.assrt wbAss))]

/-- `^(.*?)(?:[._ ]*(?:\(|\[)?\d{4}(?:\)|\])?)?[._ ]*$` — the name cleaner. -/
def nameCleanerRE : RE := reSeq [.assrt bosAss, .grp 1 (.rep anyCls 0 none true),
  .opt (reSeq [.rep sepCls 0 none false, .opt (.alt (.lit (strOf "(")) (.lit (strOf "["))),
    .rep isDigitC 4 (some 4) false, .opt (.alt (.lit (strOf ")")) (.lit (strOf "]")))]),
  .rep sepCls 0 none false, .assrt eosAss]

/-- `[a-zA-Z0-9'.]`. -/
def movieName1Cls (c : Nat) : Bool := isAlnumC c || c == 39 || c == 46

/-- `[a-zA-Z0-9' ]`. -/
def movieName2Cls (c : Nat) : Bool := isAlnumC c || c == 39 || c == 32

/-- `(?P<year>(?:19|20)\d{2})` (group 4). -/
def yearGrp : RE := .grp 4 (.seq (.alt (.lit (strOf "19")) (.lit (strOf "20")))
  (.rep isDigitC 2 (some 2) false))

/-- `[\w\s]`. -/
def wordSpaceCls (c : Nat) : Bool := isWordC c || isWsC c

/-- `(?P<name>[a-zA-Z0-9'.]+)\.(?P<year>(?:19|20)\d{2})\..*`. -/
def movieP1 : RE := reSeq [.grp 1 (.rep movieName1Cls 1 none false), .lit (strOf "."),
  yearGrp, .lit (strOf "."), .rep anyCls 0 none false]

/-- `(?P<name>[a-zA-Z0-9' ]+) [\[\()](?P<year>(?:19|20)\d{2})[\]\)].*`. -/
def movieP2 : RE := reSeq [.grp 1 (.rep movieName2Cls 1 none false), .lit (strOf " "),
  .cls (fun c => c == 91 || c == 40 || c == 41), yearGrp,
  .cls (fun c => c == 93 || c == 41), .rep anyCls 0 none false]

/-- `\[[\w\s]]\s+-\s+(?:\(\w+\)\.)?(?P<name>[a-zA-Z0-9.']+)\.(?P<year>(?:19|20)\d{2})\..*`. -/
def movieP3 : RE := reSeq [.lit (strOf "["), .cls wordSpaceCls, .lit (strOf "]"),
  .rep isWsC 1 none false, .lit (strOf "-"), .rep isWsC 1 none false,
  .opt (reSeq [.lit (strOf "("), .rep isWordC 1 none false, .lit (strOf ")"), .lit (strOf ".")]),
  .grp 1 (.rep movieName1Cls 1 none false), .lit (strOf "."),
  yearGrp, .lit (strOf "."), .rep anyCls 0 none false]

/-- `\[[\w\s]]\s+-\s+(?:\(\w+\) )?(?P<name>[a-zA-Z0-9' ]+) [\[\(](?P<year>(?:19|20)\d{2})[\]\)].*`. -/
def movieP4 : RE := reSeq [.lit (strOf "["), .cls wordSpaceCls, .lit (strOf "]"),
  .rep isWsC 1 none false, .lit (strOf "-"), .rep isWsC 1 none false,
  .opt (reSeq [.lit (strOf "("), .rep isWordC 1 none false, .lit (strOf ")"), .lit (strOf " ")]),
  .grp 1 (.rep movieName2Cls 1 none false), .lit (strOf " "),
  .cls (fun c => c == 91 || c == 40), yearGrp,
  .cls (fun c => c == 93 || c == 41), .rep anyCls 0 none false]

/-- `(?P<name>[a-zA-Z0-9' ]+) (?P<year>(?:19|20)\d{2}).*`. -/
def movieP5 : RE := reSeq [.grp 1 (.rep movieName2Cls 1 none false), .lit (strOf " "),
  yearGrp, .rep anyCls 0 none false]

/-- The five movie filename patterns, in the priority order of the source. -/
def MOVIE_PATTERNS_RE : List RE := [movieP1, movieP2, movieP3, movieP4, movieP5]

/-! ## The classifiers (src/tv.rs, src/movie.rs) -/

/-- `TvEpisodeMediaInfo` of src/tv.rs.  The OMDB fields are `None` when the
record is produced by the filename classifier. -/
structure TvEpisodeMediaInfo where
  series_name : Str
  season : Nat
  episode : Nat
  path : MPath
  title : Option Str
  plot : Option Str
  imdb_rating : Option Str
  air_date : Option Str
  director : Option Str
  media_ref : Option Str
deriving DecidableEq, Repr

/-- The body of the pattern loop of `parse_tv_episode_path`, applied to a
successful `captures` result: normalize the `name` capture, parse the
`season`/`episode` captures, fall back to the folder context for name and
season (never for the episode), and fail — for the whole function — if any
of the three cannot be resolved (the `?` operators in the source). -/
def tvResolveFromMatch (m : MatchInfo) (series_name_from_folder : Option Str)
    (season_from_folder : Option Nat) (file_path : MPath) : Option TvEpisodeMediaInfo :=
  let name_match := (capOf m 1).map (fun s => trimStr (replaceDot s))
  let season_match := (capOf m 2).bind parseU8
  let episode_match := (capOf m 3).bind parseU8
  match (match name_match with | some n => some n | none => series_name_from_folder) with
  | none => none
  | some series_name =>
    match (match season_match with | some s => some s | none => season_from_folder) with
    | none => none
    | some season =>
      match episode_match with
      | none => none
      | some episode =>
        some ⟨series_name, season, episode, file_path, none, none, none, none, none, none⟩

/-- The pattern loop of `parse_tv_episode_path`: try the patterns in
order; the first whose `captures` succeeds decides the outcome (the `?`
operators return from the whole function, so later patterns are never
consulted once one has matched). -/
def tvMatchLoop (pats : List RE) (file_name : Str) (series_name_from_folder : Option Str)
    (season_from_folder : Option Nat) (file_path : MPath) : Option TvEpisodeMediaInfo :=
  match pats with
  | [] => none
  | re :: rest =>
    match reCaptures re file_name with
    | some m => tvResolveFromMatch m series_name_from_folder season_from_folder file_path
    | none => tvMatchLoop rest file_name series_name_from_folder season_from_folder file_path

/-- `parse_tv_episode_path` of src/tv.rs. -/
def parse_tv_episode_path (file_path : MPath) (series_name_from_folder : Option Str)
    (season_from_folder : Option Nat) : Option TvEpisodeMediaInfo :=
  match fileStem file_path with
  | none => none
  | some file_name =>
    tvMatchLoop TV_PATTERNS_RE file_name series_name_from_folder season_from_folder file_path

/-- The year search of `parse_series_folder_name`: first `captures` of the
year finder, parsed as `u16` and kept only within `[1900, 2050)`. -/
def findYearIn (s : Str) : Option Nat :=
  match reCaptures yearFinderRE s with
  | some m =>
    match (capOf m 1).bind parseU16 with
    | some y => if 1900 ≤ y ∧ y < 2050 then some y else none
    | none => none
  | none => none

/-- The season-pattern loop of `parse_series_folder_name`: the first
pattern that matches and yields a season returns; the derived name is the
`name` capture if the pattern has one, else the part of the folder name
before the match; a second year search runs over the derived name if the
whole-string search failed; an empty derived name together with the match
being a prefix of the folder name yields no series name. -/
def seasonFolderLoop (pats : List RE) (folder_name : Str) (year0 : Option Nat) :
    Option (Option Str × Option Nat × Option Nat) :=
  match pats with
  | [] => none
  | re :: rest =>
    match reCaptures re folder_name with
    | none => seasonFolderLoop rest folder_name year0
    | some m =>
      match (capOf m 2).bind parseU8 with
      | none => seasonFolderLoop rest folder_name year0
      | some season_val =>
        let series_name_str := match capOf m 1 with
          | some nm => trimStr (replaceDot nm)
          | none => trimStr (replaceDot (folder_name.take m.start))
        let parsed_year := match year0 with
          | some y => some y
          | none => findYearIn series_name_str
        if series_name_str = [] ∧ List.isPrefixOf m.matched folder_name then
          some (none, some season_val, parsed_year)
        else
          some ((if series_name_str = [] then none else some series_name_str),
            some season_val, parsed_year)

/-- `parse_series_folder_name` of src/tv.rs: returns
(series name, season, year) parsed from the final path component. -/
def parse_series_folder_name (folder_path : MPath) : Option Str × Option Nat × Option Nat :=
  let folder_name := (fileNameOf folder_path).getD []
  let parsed_year := findYearIn folder_name
  let name_candidate := trimStr (replaceDot folder_name)
  match seasonFolderLoop SEASON_FOLDER_PATTERNS_RE folder_name parsed_year with
  | some r => r
  | none =>
    let final_name :=
      if parsed_year.isSome then
        match reCaptures nameCleanerRE name_candidate with
        | some m =>
          match capOf m 1 with
          | some g1 => trimStr g1
          | none => name_candidate
        | none => name_candidate
      else name_candidate
    ((if final_name = [] then none else some final_name), none, parsed_year)

/-- `MediaInfo` of src/media.rs. -/
structure MediaInfo where
  name : Str
  year : Option Nat
  path : MPath
deriving DecidableEq, Repr

/-- The name normalization of `parse_movie_filename`: dots become spaces
only when the captured name has no space but does contain a dot. -/
def movieNormalizeName (n : Str) : Str :=
  if !(n.contains 32) && n.contains 46 then replaceDot n else n

/-- `parse_movie_filename` of src/movie.rs: the first pattern whose
`captures` succeeds supplies the fields. -/
def parse_movie_filename (regexs : List RE) (path : MPath) : Option MediaInfo :=
  match fileStem path with
  | none => none
  | some filename =>
    match regexs.findSome? (fun re => reCaptures re filename) with
    | none => none
    | some m =>
      match capOf m 1 with
      | none => none
      | some n =>
        some ⟨movieNormalizeName n, (capOf m 4).bind parseU16, path⟩

/-! ## The directory walkers (src/tv.rs `scan_tv_directory`, src/main.rs `scan_folders`)

The filesystem is modelled as a tree of named entries; `fs::read_dir`
enumerates the children of a directory in the order of that list. -/

/-- A filesystem entry: a plain file or a directory with children. -/
inductive FsEntry where
  | file (name : Str)
  | dir (name : Str) (children : List FsEntry)

/-- `is_video_file` of src/tv.rs. -/
def is_video_file (path : MPath) : Bool :=
  match extensionOf path with
  | some ext => [strOf "mkv", strOf "mp4", strOf "avi", strOf "mov", strOf "wmv",
      strOf "flv", strOf "webm"].contains (toLowerStr ext)
  | none => false

/-- `collect_episodes_from_folder` of src/tv.rs: the video files directly
inside the folder, classified with the given series name and season
context; subdirectories are not recursed into. -/
def collect_episodes_from_folder (folder_path : MPath) (children : List FsEntry)
    (series_name : Str) (season_from_folder : Option Nat) : List TvEpisodeMediaInfo :=
  children.filterMap (fun e =>
    match e with
    | .file n =>
      if is_video_file (folder_path ++ [n]) then
        parse_tv_episode_path (folder_path ++ [n]) (some series_name) season_from_folder
      else none
    | .dir _ _ => none)

/-- Sorting order used for `sort_by_key(|ep| (ep.season, ep.episode))`. -/
def epOrder (a b : TvEpisodeMediaInfo) : Prop :=
  a.season < b.season ∨ (a.season = b.season ∧ a.episode ≤ b.episode)

instance : DecidableRel epOrder := fun a b => by unfold epOrder; infer_instance

instance : IsTotal TvEpisodeMediaInfo epOrder :=
  ⟨fun a b => by unfold epOrder; omega⟩

instance : IsTrans TvEpisodeMediaInfo epOrder :=
  ⟨fun a b c hab hbc => by unfold epOrder at *; omega⟩

/-- Lexicographic comparison of character lists, modelling `str::cmp`
(byte order and scalar-value order agree on UTF-8). -/
def strLeB : Str → Str → Bool
  | [], _ => true
  | _ :: _, [] => false
  | a :: as_, b :: bs => if a < b then true else if a = b then strLeB as_ bs else false

/-- `TvSeriesMediaInfo` of src/tv.rs.  The OMDB fields are `None` when the
record is produced by the directory scan. -/
structure TvSeriesMediaInfo where
  name : Str
  year : Option Nat
  path : MPath
  episodes : List TvEpisodeMediaInfo
  released : Option Str
  genre : Option Str
  plot : Option Str
  actors : Option Str
  language : Option Str
  country : Option Str
  poster_url : Option Str
  imdb_rating : Option Str
  total_seasons : Option Str
deriving DecidableEq, Repr

/-- Sorting order used for `sort_by(|a, b| a.name.cmp(&b.name))`. -/
def seriesOrder (a b : TvSeriesMediaInfo) : Prop := strLeB a.name b.name = true

instance : DecidableRel seriesOrder := fun a b => by unfold seriesOrder; infer_instance

def strLeB_total : ∀ a b : Str, strLeB a b = true ∨ strLeB b a = true := by
  intro a
  induction a with
  | nil => intro b; left; rfl
  | cons x xs ih =>
    intro b
    cases b with
    | nil => right; rfl
    | cons y ys =>
      by_cases hxy : x < y
      · left; simp [strLeB, hxy]
      · by_cases hyx : y < x
        · right; simp [strLeB, hyx]
        · have hxyeq : x = y := by omega
          subst hxyeq
          rcases ih ys with h | h <;> [left; right] <;>
            simpa [strLeB, lt_irrefl] using h

def strLeB_trans : ∀ a b c : Str, strLeB a b = true → strLeB b c = true →
    strLeB a c = true := by
  intro a
  induction a with
  | nil => intro b c _ _; rfl
  | cons x xs ih =>
    intro b c hab hbc
    cases b with
    | nil => simp [strLeB] at hab
    | cons y ys =>
      cases c with
      | nil => simp [strLeB] at hbc
      | cons z zs =>
        simp only [strLeB] at hab hbc ⊢
        split at hab
        · next hxy =>
          -- x < y; need x < z or (x = z and tail)
          split at hbc
          · next hyz => simp [show x < z by omega]
          · next hyz =>
            split at hbc
            · next hyzeq => subst hyzeq; simp [hxy]
            · exact absurd hbc (by simp)
        · next hxy =>
          split at hab
          · next hxyeq =>
            subst hxyeq
            split at hbc
            · next hyz => simp [hyz]
            · next hyz =>
              split at hbc
              · next hyzeq => subst hyzeq; simp [hyz, ih ys zs hab hbc]
              · exact absurd hbc (by simp)
          · exact absurd hab (by simp)

instance : IsTotal TvSeriesMediaInfo seriesOrder :=
  ⟨fun a b => strLeB_total a.name b.name⟩

instance : IsTrans TvSeriesMediaInfo seriesOrder :=
  ⟨fun a b c => strLeB_trans a.name b.name c.name⟩

/-- The per-directory body of `scan_tv_directory`: classify the folder
name; with no series name the folder is skipped; with a season in the
folder name its direct files are scanned under that season context;
otherwise each child subdirectory is scanned under its own classified
season context (or none) and direct video files are scanned with no
season context.  A series with no classified episodes yields nothing;
otherwise its episodes are sorted by (season, episode). -/
def mkSeriesFromDir (base_path : MPath) (e : FsEntry) : Option TvSeriesMediaInfo :=
  match e with
  | .file _ => none
  | .dir dname children =>
    let series_folder_path := base_path ++ [dname]
    match parse_series_folder_name series_folder_path with
    | (none, _, _) => none
    | (some series_name, parsed_season, parsed_year) =>
      let eps := match parsed_season with
        | some main_dir_season =>
          collect_episodes_from_folder series_folder_path children series_name
            (some main_dir_season)
        | none =>
          children.flatMap (fun item =>
            match item with
            | .dir iname ichildren =>
              let item_path := series_folder_path ++ [iname]
              match parse_series_folder_name item_path with
              | (_, some season_num, _) =>
                collect_episodes_from_folder item_path ichildren series_name (some season_num)
              | (_, none, _) =>
                collect_episodes_from_folder item_path ichildren series_name none
            | .file n =>
              if is_video_file (series_folder_path ++ [n]) then
                (parse_tv_episode_path (series_folder_path ++ [n]) (some series_name) none).toList
              else [])
      if eps.isEmpty then none
      else some ⟨series_name, parsed_year, series_folder_path, List.insertionSort epOrder eps,
        none, none, none, none, none, none, none, none, none⟩

/-- `scan_tv_directory` of src/tv.rs over the modelled tree.  Rust's
stable `sort_by`/`sort_by_key` are modelled by insertion sort, which is
also stable and therefore produces the same list. -/
def scan_tv_directory (tv_base_path : MPath) (entries : List FsEntry) : List TvSeriesMediaInfo :=
  List.insertionSort seriesOrder (entries.filterMap (mkSeriesFromDir tv_base_path))

/-- One step of `walkdir::WalkDir`: the entry itself, then (while depth
remains) the children.  The Bool records `is_file`. -/
def walkEntries : Nat → MPath → FsEntry → List (MPath × Bool)
  | _, cur, .file n => [(cur ++ [n], true)]
  | 0, cur, .dir n _ => [(cur ++ [n], false)]
  | d + 1, cur, .dir n ch => (cur ++ [n], false) :: ch.flatMap (walkEntries d (cur ++ [n]))

/-- `scan_folders` of src/main.rs: walk to depth 2 below the base, keep
files whose extension is exactly `"mp4"` (an exact `OsStr` comparison —
no case folding, unlike `is_video_file`). -/
def scan_folders (basepath : MPath) (children : List FsEntry) : List MPath :=
  (((basepath, false) :: children.flatMap (walkEntries 1 basepath)).filter
    (fun pe => pe.2 && extensionOf pe.1 == some (strOf "mp4"))).map (fun pe => pe.1)

/-! ## The search index (src/search.rs, src/main.rs)

`generate_id` hashes with `std::collections::hash_map::DefaultHasher`,
which is SipHash-1-3 with both keys zero.  The hasher is modelled
byte-for-byte below: 64-bit words are naturals reduced mod 2^64;
`Option<&str>::hash` feeds the variant discriminant as a little-endian
`u64` followed, for `Some`, by the string bytes and the `0xFF`
terminator that `str::hash` appends. -/

/-- 2^64, the modulus of the 64-bit hash arithmetic. -/
def w64 : Nat := 18446744073709551616

/-- 64-bit left rotation (the two halves occupy disjoint bit ranges, so
addition is bitwise or). -/
def rotl64 (x n : Nat) : Nat := ((x % w64) * 2 ^ n + x / 2 ^ (64 - n)) % w64

/-- The four 64-bit SipHash state words. -/
structure SipState where
  v0 : Nat
  v1 : Nat
  v2 : Nat
  v3 : Nat

/-- One SipRound. -/
def sipRound (s : SipState) : SipState :=
  let v0 := (s.v0 + s.v1) % w64
  let v1 := rotl64 s.v1 13
  let v1 := v1 ^^^ v0
  let v0 := rotl64 v0 32
  let v2 := (s.v2 + s.v3) % w64
  let v3 := rotl64 s.v3 16
  let v3 := v3 ^^^ v2
  let v0 := (v0 + v3) % w64
  let v3 := rotl64 v3 21
  let v3 := v3 ^^^ v0
  let v2 := (v2 + v1) % w64
  let v1 := rotl64 v1 17
  let v1 := v1 ^^^ v2
  let v2 := rotl64 v2 32
  ⟨v0, v1, v2, v3⟩

/-- Initial state for keys (0, 0), as `DefaultHasher::new()` uses. -/
def sipInit : SipState :=
  ⟨0x736f6d6570736575, 0x646f72616e646f6d, 0x6c7967656e657261, 0x7465646279746573⟩

/-- Compression of one message word (SipHash-1-3: one round). -/
def sipCompress (s : SipState) (m : Nat) : SipState :=
  let s := { s with v3 := s.v3 ^^^ m }
  let s := sipRound s
  { s with v0 := s.v0 ^^^ m }

/-- Little-endian value of up to eight bytes. -/
def le64 (bs : List Nat) : Nat := bs.foldr (fun b acc => acc * 256 + b) 0

/-- Absorb all full 8-byte words, returning the state and the tail bytes. -/
def sipRun (s : SipState) : List Nat → SipState × List Nat
  | b0 :: b1 :: b2 :: b3 :: b4 :: b5 :: b6 :: b7 :: rest =>
    sipRun (sipCompress s (le64 [b0, b1, b2, b3, b4, b5, b6, b7])) rest
  | tail => (s, tail)

/-- SipHash-1-3 with keys (0, 0) of a byte stream: `DefaultHasher`'s
`finish` after `write`ing the bytes. -/
def siphash13 (bytes : List Nat) : Nat :=
  let (s, tail) := sipRun sipInit bytes
  let b := (bytes.length % 256) * 2 ^ 56 + le64 tail
  let s := sipCompress s b
  let s := { s with v2 := s.v2 ^^^ 255 }
  let s := sipRound (sipRound (sipRound s))
  s.v0 ^^^ s.v1 ^^^ s.v2 ^^^ s.v3

/-- Bytes of a string (ASCII model; UTF-8 agrees on ASCII). -/
def strBytes (s : String) : List Nat := s.data.map Char.toNat

/-- The eight little-endian bytes of a `u64`/`usize`. -/
def u64Bytes (n : Nat) : List Nat := (List.range 8).map (fun i => n / 2 ^ (8 * i) % 256)

/-- The byte stream `Option<&str>::hash` feeds the hasher: the variant
discriminant as a `u64`, then for `Some` the string bytes and the `0xFF`
terminator of `str::hash`. -/
def optStrHashBytes (o : Option String) : List Nat :=
  match o with
  | none => u64Bytes 0
  | some s => u64Bytes 1 ++ strBytes s ++ [255]

/-- `generate_id` of src/search.rs: hash `path.to_str()` then the media
type tag, and render as `"{media_type}_{hash}"`. -/
def generate_id (path_str : Option String) (media_type : String) : String :=
  media_type ++ "_" ++
    toString (siphash13 (optStrHashBytes path_str ++ strBytes media_type ++ [255]))

/-- `build_meta_string` of src/search.rs: the present fields of
genre, actors, director, writer, space-joined in that order. -/
def build_meta_string (genre actors director writer : Option String) : String :=
  String.intercalate " " ([genre, actors, director, writer].filterMap id)

/-- `SearchIndexEntry` of src/search.rs. -/
structure SearchIndexEntry where
  id : String
  title : String
  year : Option Nat
  media_type : String
  url : String
  poster_url : String
  meta : String
deriving DecidableEq, Repr

/-- The page name of a movie page (src/main.rs): the `DefaultHasher`
hash of `path.to_str()` followed by `".html"`. -/
def moviePageName (path_str : String) : String :=
  toString (siphash13 (optStrHashBytes (some path_str))) ++ ".html"

/-- `MovieIndexInfo` of src/main.rs. -/
structure MovieIndexInfo where
  name : String
  year : Nat
  director : String
  poster_url : String
  page_url : String
deriving DecidableEq, Repr

/-- The `MovieIndexInfo` built for a resolved movie in `generate_content`
(src/main.rs): note the page URL is derived from the movie's file path,
but nothing else of the path is retained. -/
def movieIndexInfoOf (name : String) (year : Nat) (director poster_url : String)
    (path_str : String) : MovieIndexInfo :=
  ⟨name, year, director, poster_url, moviePageName path_str⟩

/-- The movie `SearchIndexEntry` built in `generate_content`
(src/main.rs): the id hashes `PathBuf::from(&movie.name)` — the movie's
NAME used as a path — with the `"movie"` tag. -/
def movieSearchEntry (movie : MovieIndexInfo) (meta : String) : SearchIndexEntry :=
  ⟨generate_id (some movie.name) "movie",
    movie.name ++ " (" ++ toString movie.year ++ ")",
    some movie.year, "movie", movie.page_url, movie.poster_url, meta⟩

/-- `TvSeriesIndexInfo` of src/main.rs. -/
structure TvSeriesIndexInfo where
  name : String
  year : Option Nat
  episodes_count : Nat
  page_url : String
  poster_url : String
deriving DecidableEq, Repr

/-- The series `SearchIndexEntry` built in `generate_content`
(src/main.rs): the id hashes `PathBuf::from(&series_index.name)` — the
series NAME used as a path — with the `"series"` tag. -/
def seriesSearchEntry (series_index : TvSeriesIndexInfo) (meta : String) : SearchIndexEntry :=
  ⟨generate_id (some series_index.name) "series",
    (match series_index.year with
     | some y => series_index.name ++ " (" ++ toString y ++ ")"
     | none => series_index.name),
    series_index.year, "series", series_index.page_url, series_index.poster_url, meta⟩

/-- The id of an episode `SearchIndexEntry` built in `generate_content`
(src/main.rs line 449): the episode's file path with the `"episode"`
tag. -/
def episodeSearchEntryId (episode_path_str : String) : String :=
  generate_id (some episode_path_str) "episode"

/-! ## The cache store (src/cache.rs)

`MediaCache` is an SQLite database with three tables whose writes are
`INSERT OR REPLACE` keyed on a UNIQUE column (movies: `path_hash`;
tv_episodes: `(series_name, season, episode)`).  A table is modelled as
the list of its rows; `INSERT OR REPLACE` deletes any conflicting row
and appends the new one.  The serialized snapshot (`serde_json`) is
modelled at the level of the JSON document; the errors `rusqlite` can
return for failing SQL statements are external to the model, so the
accessors below always return `.ok` — which is exactly the property the
spec claims for misses and corrupt payloads. -/

/-- A JSON value (the fragment `serde_json` needs for these records). -/
inductive Json where
  | str (s : String)
  | num (n : Nat)
  | null

/-- `MovieInfo` of src/movie.rs (URLs and paths serialize as strings). -/
structure MovieInfo where
  name : String
  year : Nat
  director : String
  path : String
  info_url : String
  poster_url : String
  language : String
  plot : String
  genre : String
  runtime : String
  released : String
  rated : String
  actors : String
  imdb_rating : String
  rotten_tomatoes_rating : Option String
deriving DecidableEq, Repr

/-- A row of a JSON object. -/
abbrev JsonObj := List (String × Json)

/-- Serialization of `MovieInfo` as `serde_json::to_string` produces it:
an object with the fields in declaration order, `Option` as null-or-value. -/
def serializeMovieInfo (m : MovieInfo) : JsonObj :=
  [("name", .str m.name), ("year", .num m.year), ("director", .str m.director),
   ("path", .str m.path), ("info_url", .str m.info_url), ("poster_url", .str m.poster_url),
   ("language", .str m.language), ("plot", .str m.plot), ("genre", .str m.genre),
   ("runtime", .str m.runtime), ("released", .str m.released), ("rated", .str m.rated),
   ("actors", .str m.actors), ("imdb_rating", .str m.imdb_rating),
   ("rotten_tomatoes_rating", match m.rotten_tomatoes_rating with
     | some s => .str s
     | none => .null)]

/-- Field lookup in a JSON object. -/
def jsonField (o : JsonObj) (k : String) : Option Json := List.lookup k o

/-- A JSON string, if the value is one. -/
def asJsonStr (j : Json) : Option String := match j with | .str s => some s | _ => none

/-- A JSON number, if the value is one. -/
def asJsonNum (j : Json) : Option Nat := match j with | .num n => some n | _ => none

/-- An `Option String` field of a JSON object. -/
def optStrField (o : JsonObj) (k : String) : Option (Option String) :=
  match jsonField o k with
  | some .null => some none
  | some (.str s) => some (some s)
  | some (.num _) => none
  | none => some none

/-- Deserialization of `MovieInfo`, as `serde_json::from_str` would
accept it: every non-`Option` field must be present with the right
shape; the `Option` field accepts null, a string, or absence. -/
def deserializeMovieInfo (o : JsonObj) : Option MovieInfo :=
  match (jsonField o "name").bind asJsonStr with
  | none => none
  | some name =>
  match (jsonField o "year").bind asJsonNum with
  | none => none
  | some year =>
  match (jsonField o "director").bind asJsonStr with
  | none => none
  | some director =>
  match (jsonField o "path").bind asJsonStr with
  | none => none
  | some path =>
  match (jsonField o "info_url").bind asJsonStr with
  | none => none
  | some info_url =>
  match (jsonField o "poster_url").bind asJsonStr with
  | none => none
  | some poster_url =>
  match (jsonField o "language").bind asJsonStr with
  | none => none
  | some language =>
  match (jsonField o "plot").bind asJsonStr with
  | none => none
  | some plot =>
  match (jsonField o "genre").bind asJsonStr with
  | none => none
  | some genre =>
  match (jsonField o "runtime").bind asJsonStr with
  | none => none
  | some runtime =>
  match (jsonField o "released").bind asJsonStr with
  | none => none
  | some released =>
  match (jsonField o "rated").bind asJsonStr with
  | none => none
  | some rated =>
  match (jsonField o "actors").bind asJsonStr with
  | none => none
  | some actors =>
  match (jsonField o "imdb_rating").bind asJsonStr with
  | none => none
  | some imdb_rating =>
  match optStrField o "rotten_tomatoes_rating" with
  | none => none
  | some rotten_tomatoes_rating =>
  some ⟨name, year, director, path, info_url, poster_url, language, plot, genre,
    runtime, released, rated, actors, imdb_rating, rotten_tomatoes_rating⟩

/-- `EpisodeTemplateData` of src/tv.rs (the record cached per episode). -/
structure EpisodeTemplateData where
  title : String
  episode_number : Nat
  plot : Option String
  imdb_rating : Option String
  aired_date : Option String
  director : Option String
  media_ref : String
deriving DecidableEq, Repr

/-- Serialization of `EpisodeTemplateData`, fields in declaration order. -/
def serializeEpisodeData (d : EpisodeTemplateData) : JsonObj :=
  [("title", .str d.title), ("episode_number", .num d.episode_number),
   ("plot", match d.plot with | some s => .str s | none => .null),
   ("imdb_rating", match d.imdb_rating with | some s => .str s | none => .null),
   ("aired_date", match d.aired_date with | some s => .str s | none => .null),
   ("director", match d.director with | some s => .str s | none => .null),
   ("media_ref", .str d.media_ref)]

/-- Deserialization of `EpisodeTemplateData`. -/
def deserializeEpisodeData (o : JsonObj) : Option EpisodeTemplateData :=
  match (jsonField o "title").bind asJsonStr with
  | none => none
  | some title =>
  match (jsonField o "episode_number").bind asJsonNum with
  | none => none
  | some episode_number =>
  match optStrField o "plot" with
  | none => none
  | some plot =>
  match optStrField o "imdb_rating" with
  | none => none
  | some imdb_rating =>
  match optStrField o "aired_date" with
  | none => none
  | some aired_date =>
  match optStrField o "director" with
  | none => none
  | some director =>
  match (jsonField o "media_ref").bind asJsonStr with
  | none => none
  | some media_ref =>
  some ⟨title, episode_number, plot, imdb_rating, aired_date, director, media_ref⟩

/-- A row of the `movies` table. -/
structure MovieRow where
  name : String
  year : Nat
  path_hash : String
  json_data : JsonObj

/-- A row of the `tv_episodes` table. -/
structure TvEpisodeRow where
  series_name : String
  season : Nat
  episode : Nat
  json_data : JsonObj

/-- `MediaCache` (the `tv_series` table plays no role in the claims but
is carried for shape). -/
structure MediaCache where
  movies : List MovieRow
  tv_episodes : List TvEpisodeRow

/-- The error type standing for `rusqlite::Error`.  The in-memory model
has no failing SQL statements, so no accessor below ever produces it. -/
inductive DbFailure where
  | sqlFailure

/-- `MediaCache::store_movie`: serialize and `INSERT OR REPLACE` keyed on
the UNIQUE `path_hash` column (the conflicting row is deleted, the fresh
row appended). -/
def MediaCache.store_movie (c : MediaCache) (movie : MovieInfo) (path_hash : String) :
    MediaCache :=
  { c with movies := (c.movies.filter (fun r => !(r.path_hash == path_hash))) ++
      [⟨movie.name, movie.year, path_hash, serializeMovieInfo movie⟩] }

/-- `MediaCache::get_movie_by_path_hash`: select the rows with this key
and return the first whose payload deserializes; otherwise `Ok(None)`. -/
def MediaCache.get_movie_by_path_hash (c : MediaCache) (path_hash : String) :
    Except DbFailure (Option MovieInfo) :=
  .ok ((c.movies.filter (fun r => r.path_hash == path_hash)).findSome?
    (fun r => deserializeMovieInfo r.json_data))

/-- `MediaCache::store_tv_episode`: serialize and `INSERT OR REPLACE`
keyed on the UNIQUE `(series_name, season, episode)` triple. -/
def MediaCache.store_tv_episode (c : MediaCache) (series_name : String) (season episode : Nat)
    (data : EpisodeTemplateData) : MediaCache :=
  { c with tv_episodes := (c.tv_episodes.filter (fun r =>
      !(r.series_name == series_name && r.season == season && r.episode == episode))) ++
      [⟨series_name, season, episode, serializeEpisodeData data⟩] }

/-- `MediaCache::get_tv_episode`: select the rows with this key and
return the first whose payload deserializes; otherwise `Ok(None)`. -/
def MediaCache.get_tv_episode (c : MediaCache) (series_name : String) (season episode : Nat) :
    Except DbFailure (Option EpisodeTemplateData) :=
  .ok ((c.tv_episodes.filter (fun r =>
      r.series_name == series_name && r.season == season && r.episode == episode)).findSome?
    (fun r => deserializeEpisodeData r.json_data))

/-! ## Concrete data used by the witnesses -/

-- Recursion depth for the concrete kernel evaluations below.
set_option maxRecDepth 40000

/-- A TV library with two series, listed out of order and with episodes
out of order. -/
def sampleTvEntries : List FsEntry :=
  [.dir (strOf "Beta") [.file (strOf "Beta.S01E02.mkv"), .file (strOf "Beta.S01E01.mkv")],
   .dir (strOf "Alpha Season 1") [.file (strOf "E01.mkv")]]

/-- The series record the scan produces for the `Beta` folder. -/
def sampleBetaSeries : TvSeriesMediaInfo :=
  ⟨strOf "Beta", none, [strOf "Beta"],
   [⟨strOf "Beta", 1, 1, [strOf "Beta", strOf "Beta.S01E01.mkv"],
       none, none, none, none, none, none⟩,
    ⟨strOf "Beta", 1, 2, [strOf "Beta", strOf "Beta.S01E02.mkv"],
       none, none, none, none, none, none⟩],
   none, none, none, none, none, none, none, none, none⟩

/-- A movie folder containing one `.mp4` at depth 1, one `.mkv`, one
`.mp4` at depth 2 and one `.mp4` at depth 3. -/
def sampleMovieEntries : List FsEntry :=
  [.file (strOf "a.mp4"), .file (strOf "b.mkv"),
   .dir (strOf "d") [.file (strOf "c.mp4"), .dir (strOf "dd") [.file (strOf "deep.mp4")]]]

/-- A cache whose movie table holds one row with an unusable payload
under key `"k1"`, and whose episode table holds one row with an unusable
payload under key `("s", 1, 2)`. -/
def corruptSampleCache : MediaCache :=
  ⟨[⟨"n", 5, "k1", [("name", .num 3)]⟩], [⟨"s", 1, 2, [("title", .null)]⟩]⟩

/-! ## Shared lemmas -/

/-- Unrolling the TV pattern loop past patterns whose `captures` fails:
once some pattern matches, the outcome is decided by that pattern alone
and the patterns after it are never consulted. -/
theorem tvMatchLoop_append (pre post : List RE) (re : RE) (file_name : Str) (m : MatchInfo)
    (nctx : Option Str) (sctx : Option Nat) (p : MPath)
    (hpre : ∀ r ∈ pre, reCaptures r file_name = none)
    (hm : reCaptures re file_name = some m) :
    tvMatchLoop (pre ++ re :: post) file_name nctx sctx p = tvResolveFromMatch m nctx sctx p := by
  induction pre with
  | nil => simp [tvMatchLoop, hm]
  | cons r rs ih =>
    have h0 : reCaptures r file_name = none := hpre r (by simp)
    simp only [List.cons_append, tvMatchLoop, h0]
    exact ih (fun r' hr' => hpre r' (by simp [hr']))

/-- Filtering with a predicate after filtering with its negation leaves
nothing. -/
theorem filter_not_filter (p : α → Bool) (l : List α) :
    (l.filter (fun a => !(p a))).filter p = [] := by
  induction l with
  | nil => rfl
  | cons x xs ih => by_cases hp : p x <;> simp [List.filter_cons, hp, ih]

/-- `findSome?` over a list on which the function always fails. -/
theorem findSome_none (f : α → Option β) (l : List α) (h : ∀ a ∈ l, f a = none) :
    l.findSome? f = none := by
  induction l with
  | nil => rfl
  | cons x xs ih =>
    have hx := h x (by simp)
    rw [List.findSome?_cons, hx]
    exact ih (fun a ha => h a (by simp [ha]))

/-- Deserializing a serialized `MovieInfo` restores every field. -/
theorem movieInfo_roundtrip (m : MovieInfo) :
    deserializeMovieInfo (serializeMovieInfo m) = some m := by
  rcases m with ⟨name, year, director, path, info_url, poster_url, language, plot, genre,
    runtime, released, rated, actors, imdb_rating, rt⟩
  cases rt <;> rfl

/-! ## The claims -/

/-- C2: the TV filename classifier is total (it is a Lean function) and
tries its nine patterns `TV_PATTERNS_RE` in the fixed priority order
name+SxxExx, name+NxNN, bare SxxExx, bare NxNN, name+E-only,
name+"Episode N", bare E-only, bare "Episode N", compact four trailing
digits: whenever the patterns split as `pre ++ re :: post` with every
pattern of `pre` failing and `re` matching, the classifier returns
exactly the fields captured by `re` (resolved against the folder
context), whatever the patterns in `post` would have said — no
backtracking to later patterns. -/
theorem tv_classifier_priority
    (file_path : MPath) (stem : Str) (pre post : List RE) (re : RE) (m : MatchInfo)
    (nctx : Option Str) (sctx : Option Nat)
    (hstem : fileStem file_path = some stem)
    (hsplit : TV_PATTERNS_RE = pre ++ re :: post)
    (hpre : ∀ r ∈ pre, reCaptures r stem = none)
    (hm : reCaptures re stem = some m) :
    parse_tv_episode_path file_path nctx sctx = tvResolveFromMatch m nctx sctx file_path := by
  simp only [parse_tv_episode_path, hstem]
  rw [hsplit]
  exact tvMatchLoop_append pre post re stem m nctx sctx file_path hpre hm

/-- Witness for C2: `"S01E02.mkv"` fails the two name-bearing patterns
and matches the bare SxxExx pattern, whose captured fields decide the
outcome. -/
theorem tv_classifier_priority_witness :
    parse_tv_episode_path [strOf "S01E02.mkv"] (some (strOf "Show")) none =
      tvResolveFromMatch ⟨0, strOf "S01E02", [(3, strOf "02"), (2, strOf "01")]⟩
        (some (strOf "Show")) none [strOf "S01E02.mkv"] :=
  tv_classifier_priority [strOf "S01E02.mkv"] (strOf "S01E02") [tvP1, tvP2]
    [tvP4, tvP5, tvP6, tvP7, tvP8, tvP9] tvP3
    ⟨0, strOf "S01E02", [(3, strOf "02"), (2, strOf "01")]⟩ (some (strOf "Show")) none
    (by decide) rfl (by decide) (by decide)

/-- C3: when the first matching pattern captures no season, the season is
resolved from the folder context: with no context the classifier returns
`none`; with context season `sv` the returned record carries season
`sv`; and in every case the episode number comes only from the
filename match, never from context. -/
theorem tv_season_context_resolution
    (file_path : MPath) (stem : Str) (pre post : List RE) (re : RE) (m : MatchInfo)
    (nctx : Option Str)
    (hstem : fileStem file_path = some stem)
    (hsplit : TV_PATTERNS_RE = pre ++ re :: post)
    (hpre : ∀ r ∈ pre, reCaptures r stem = none)
    (hm : reCaptures re stem = some m)
    (hseason : capOf m 2 = none) :
    parse_tv_episode_path file_path nctx none = none ∧
    (∀ sv info, parse_tv_episode_path file_path nctx (some sv) = some info →
      info.season = sv) ∧
    (∀ sctx info, parse_tv_episode_path file_path nctx sctx = some info →
      some info.episode = (capOf m 3).bind parseU8) := by
  have key : ∀ sctx, parse_tv_episode_path file_path nctx sctx =
      tvResolveFromMatch m nctx sctx file_path := by
    intro sctx
    simp only [parse_tv_episode_path, hstem]
    rw [hsplit]
    exact tvMatchLoop_append pre post re stem m nctx sctx file_path hpre hm
  refine ⟨?_, ?_, ?_⟩
  · rw [key none]
    simp only [tvResolveFromMatch, hseason, Option.none_bind]
    split
    · rfl
    · rfl
  · intro sv info h
    rw [key (some sv)] at h
    simp only [tvResolveFromMatch, hseason, Option.none_bind] at h
    split at h
    · exact absurd h (by simp)
    · split at h
      · exact absurd h (by simp)
      · injection h with h'
        subst h'
        rfl
  · intro sctx info h
    rw [key sctx] at h
    simp only [tvResolveFromMatch] at h
    split at h
    · exact absurd h (by simp)
    · split at h
      · exact absurd h (by simp)
      · split at h
        · exact absurd h (by simp)
        · next heq =>
          injection h with h'
          subst h'
          simp [heq]

/-- Witness for C3: `"Some.Show.E03.mkv"` fails patterns 1–4 and matches
the name+E-only pattern, which captures no season: with no folder
context the classifier returns `none`; with folder season 2 the episode
resolves to season 2, episode 3 (episode from the filename only). -/
theorem tv_season_context_resolution_witness :
    parse_tv_episode_path [strOf "Some.Show.E03.mkv"] (some (strOf "Some Show")) none = none ∧
    (⟨strOf "Some Show", 2, 3, [strOf "Some.Show.E03.mkv"],
        none, none, none, none, none, none⟩ : TvEpisodeMediaInfo).season = 2 :=
  ⟨(tv_season_context_resolution [strOf "Some.Show.E03.mkv"] (strOf "Some.Show.E03")
      [tvP1, tvP2, tvP3, tvP4] [tvP6, tvP7, tvP8, tvP9] tvP5
      ⟨0, strOf "Some.Show.E03", [(3, strOf "03"), (1, strOf "Some.Show")]⟩
      (some (strOf "Some Show"))
      (by decide) rfl (by decide) (by decide) (by decide)).1,
   (tv_season_context_resolution [strOf "Some.Show.E03.mkv"] (strOf "Some.Show.E03")
      [tvP1, tvP2, tvP3, tvP4] [tvP6, tvP7, tvP8, tvP9] tvP5
      ⟨0, strOf "Some.Show.E03", [(3, strOf "03"), (1, strOf "Some.Show")]⟩
      (some (strOf "Some Show"))
      (by decide) rfl (by decide) (by decide) (by decide)).2.1 2
      ⟨strOf "Some Show", 2, 3, [strOf "Some.Show.E03.mkv"],
        none, none, none, none, none, none⟩ (by decide)⟩

/-- C1 (amended): whenever the first matching TV pattern captures a name
`n`, the returned series name is `n` with every dot replaced by a space
and the result whitespace-trimmed — unconditionally, even when `n`
already contains a space (where the movie rule `movieNormalizeName`
would keep `n` verbatim; the two rules agree only when `n` has no space
or no dot). -/
theorem tv_name_dot_normalization
    (file_path : MPath) (stem : Str) (pre post : List RE) (re : RE) (m : MatchInfo)
    (nctx : Option Str) (n : Str)
    (hstem : fileStem file_path = some stem)
    (hsplit : TV_PATTERNS_RE = pre ++ re :: post)
    (hpre : ∀ r ∈ pre, reCaptures r stem = none)
    (hm : reCaptures re stem = some m)
    (hname : capOf m 1 = some n) :
    ∀ sctx info, parse_tv_episode_path file_path nctx sctx = some info →
      info.series_name = trimStr (replaceDot n) := by
  intro sctx info h
  have key : parse_tv_episode_path file_path nctx sctx =
      tvResolveFromMatch m nctx sctx file_path := by
    simp only [parse_tv_episode_path, hstem]
    rw [hsplit]
    exact tvMatchLoop_append pre post re stem m nctx sctx file_path hpre hm
  rw [key] at h
  simp only [tvResolveFromMatch, hname] at h
  split at h
  · exact absurd h (by simp)
  · split at h
    · exact absurd h (by simp)
    · split at h
      · exact absurd h (by simp)
      · injection h with h'
        subst h'
        simp_all

/-- Witness for C1: `"My.Show.S02E05"` matches the first pattern with
captured name `"My.Show"`, and the returned series name is
`"My Show"` — the capture with dots replaced and trimmed. -/
theorem tv_name_dot_normalization_witness :
    (⟨strOf "My Show", 2, 5, [strOf "My.Show.S02E05.mkv"],
        none, none, none, none, none, none⟩ : TvEpisodeMediaInfo).series_name =
      trimStr (replaceDot (strOf "My.Show")) :=
  tv_name_dot_normalization [strOf "My.Show.S02E05.mkv"] (strOf "My.Show.S02E05")
    [] [tvP2, tvP3, tvP4, tvP5, tvP6, tvP7, tvP8, tvP9] tvP1
    ⟨0, strOf "My.Show.S02E05", [(3, strOf "05"), (2, strOf "02"), (1, strOf "My.Show")]⟩
    none (strOf "My.Show")
    (by decide) rfl (by decide) (by decide) (by decide) none
    ⟨strOf "My Show", 2, 5, [strOf "My.Show.S02E05.mkv"],
      none, none, none, none, none, none⟩ (by decide)

/-- Counterexample to C1 as stated: for `"Ab C.D S01E02.mkv"` the first
pattern captures the name `"Ab C.D"`, which contains a space, so the
movie rule would use it verbatim; the TV classifier nevertheless
replaces its dot and returns `"Ab C D"`. -/
theorem tv_name_dot_normalization_cex :
    (parse_tv_episode_path [strOf "Ab C.D S01E02.mkv"] none none).map
      TvEpisodeMediaInfo.series_name = some (strOf "Ab C D") ∧
    (reCaptures tvP1 (strOf "Ab C.D S01E02")).bind (fun m => capOf m 1) =
      some (strOf "Ab C.D") ∧
    movieNormalizeName (strOf "Ab C.D") = strOf "Ab C.D" ∧
    strOf "Ab C D" ≠ strOf "Ab C.D" := by
  refine ⟨by decide, by decide, by decide, by decide⟩

/-- C4: spec examples C and D, literally.  The folder
`"tales.from.the.loop.2020.season.01"` classifies as series
`"tales from the loop 2020"`, season 1, year 2020; the file
`"tloop0108.mp4"` under that context classifies as series `"tloop"`,
season 1, episode 8; and the folder `"Series Name (2020)"` classifies as
name `"Series Name"`, no season, year 2020. -/
theorem folder_and_compact_filename_examples :
    parse_series_folder_name [strOf "tales.from.the.loop.2020.season.01"] =
      (some (strOf "tales from the loop 2020"), some 1, some 2020) ∧
    parse_tv_episode_path
      [strOf "tales.from.the.loop.2020.season.01", strOf "tloop0108.mp4"]
      (some (strOf "tales from the loop 2020")) (some 1) =
      some ⟨strOf "tloop", 1, 8,
        [strOf "tales.from.the.loop.2020.season.01", strOf "tloop0108.mp4"],
        none, none, none, none, none, none⟩ ∧
    parse_series_folder_name [strOf "Series Name (2020)"] =
      (some (strOf "Series Name"), none, some 2020) := by
  refine ⟨by decide, by decide, by decide⟩

/-- C5: spec examples A and B, literally.  The movie classifier parses
the dotted release-tagged stem to name
`"Journey To The West Conquering The Demons"` with year 2013 and the
parenthesized-year stem to name `"Man On The Moon"` with year 1999. -/
theorem movie_filename_examples :
    parse_movie_filename MOVIE_PATTERNS_RE
      [strOf "Journey.To.The.West.Conquering.The.Demons.2013.720p.WEBRip.x264.AC3-JYK.mp4"] =
      some ⟨strOf "Journey To The West Conquering The Demons", some 2013,
        [strOf "Journey.To.The.West.Conquering.The.Demons.2013.720p.WEBRip.x264.AC3-JYK.mp4"]⟩ ∧
    parse_movie_filename MOVIE_PATTERNS_RE
      [strOf "Man On The Moon (1999) [1080p].mp4"] =
      some ⟨strOf "Man On The Moon", some 1999,
        [strOf "Man On The Moon (1999) [1080p].mp4"]⟩ := by
  refine ⟨by decide, by decide⟩

/-- Counterexample to C6 as stated: two movie catalog entries whose
movies share the same file path (hence the same page name) but differ in
title receive different ids — the id is not a function of (path, type
tag).  Conversely, changing only the path (and hence the page URL)
leaves the id unchanged. -/
theorem catalog_movie_id_cex :
    (movieSearchEntry (movieIndexInfoOf "Heat" 1995 "Mann" "poster" "/movies/a.mp4") "").id ≠
      (movieSearchEntry (movieIndexInfoOf "Fargo" 1996 "Coen" "poster" "/movies/a.mp4") "").id ∧
    (movieSearchEntry (movieIndexInfoOf "Heat" 1995 "Mann" "poster" "/movies/a.mp4") "").id =
      (movieSearchEntry (movieIndexInfoOf "Heat" 1995 "Mann" "poster" "/movies/b.mp4") "").id := by
  refine ⟨by decide, rfl⟩

/-- C6 (amended): catalog ids are deterministic `generate_id` hashes, but
over different subjects per entry kind: movie and series entries hash the
TITLE/NAME with the type tag (so the id ignores the file path: any two
movie entries with the same name share an id, and likewise for series),
while only episode entries hash the file path with the type tag. -/
theorem catalog_id_subjects :
    (∀ (m₁ m₂ : MovieIndexInfo) (meta₁ meta₂ : String), m₁.name = m₂.name →
      (movieSearchEntry m₁ meta₁).id = (movieSearchEntry m₂ meta₂).id) ∧
    (∀ (s₁ s₂ : TvSeriesIndexInfo) (meta₁ meta₂ : String), s₁.name = s₂.name →
      (seriesSearchEntry s₁ meta₁).id = (seriesSearchEntry s₂ meta₂).id) ∧
    (∀ (m : MovieIndexInfo) (meta : String),
      (movieSearchEntry m meta).id = generate_id (some m.name) "movie") ∧
    (∀ (s : TvSeriesIndexInfo) (meta : String),
      (seriesSearchEntry s meta).id = generate_id (some s.name) "series") ∧
    (∀ p : String, episodeSearchEntryId p = generate_id (some p) "episode") := by
  refine ⟨?_, ?_, fun _ _ => rfl, fun _ _ => rfl, fun _ => rfl⟩
  · intro m₁ m₂ meta₁ meta₂ hname
    simp [movieSearchEntry, hname]
  · intro s₁ s₂ meta₁ meta₂ hname
    simp [seriesSearchEntry, hname]

/-- Witness for C6: two concrete movie entries sharing a title but built
from different pages and metadata receive the same id. -/
theorem catalog_id_subjects_witness :
    (movieSearchEntry ⟨"Heat", 1995, "d1", "p1", "111.html"⟩ "g").id =
      (movieSearchEntry ⟨"Heat", 1995, "d2", "p2", "222.html"⟩ "h").id :=
  catalog_id_subjects.1 ⟨"Heat", 1995, "d1", "p1", "111.html"⟩
    ⟨"Heat", 1995, "d2", "p2", "222.html"⟩ "g" "h" rfl

/-- C7: for every modelled directory tree, the TV scan returns a list of
series sorted by name, and every returned series has a nonempty episode
list sorted ascending by (season, episode) — a folder with no classified
episodes contributes no series at all. -/
theorem scan_tv_directory_invariants (tv_base_path : MPath) (entries : List FsEntry) :
    List.Sorted seriesOrder (scan_tv_directory tv_base_path entries) ∧
    ∀ s ∈ scan_tv_directory tv_base_path entries,
      s.episodes ≠ [] ∧ List.Sorted epOrder s.episodes := by
  constructor
  · exact List.sorted_insertionSort seriesOrder _
  · intro s hs
    have hs' : s ∈ entries.filterMap (mkSeriesFromDir tv_base_path) :=
      (List.perm_insertionSort seriesOrder _).mem_iff.mp hs
    obtain ⟨e, _he, hmk⟩ := List.mem_filterMap.mp hs'
    cases e with
    | file n => simp [mkSeriesFromDir] at hmk
    | dir dname children =>
      simp only [mkSeriesFromDir] at hmk
      split at hmk
      · exact absurd hmk (by simp)
      · split at hmk
        · exact absurd hmk (by simp)
        · next heps =>
          injection hmk with h'
          subst h'
          constructor
          · intro hnil
            have hlen := congrArg List.length hnil
            rw [List.length_insertionSort] at hlen
            simp only [List.length_nil] at hlen
            rw [List.isEmpty_iff] at heps
            exact heps (List.length_eq_zero.mp hlen)
          · exact List.sorted_insertionSort epOrder _

/-- Witness for C7: in the sample library the `Beta` series is returned
with its two episodes (inserted out of order) sorted, and its episode
list is nonempty and sorted. -/
theorem scan_tv_directory_invariants_witness :
    sampleBetaSeries ∈ scan_tv_directory [] sampleTvEntries ∧
    sampleBetaSeries.episodes ≠ [] ∧ List.Sorted epOrder sampleBetaSeries.episodes := by
  have hmem : sampleBetaSeries ∈ scan_tv_directory [] sampleTvEntries := by decide
  exact ⟨hmem, (scan_tv_directory_invariants [] sampleTvEntries).2 sampleBetaSeries hmem⟩

/-- C8: storing a movie record under a path-hash key and fetching by the
same key returns `Ok(Some ...)` of a record equal in every field; after
two stores under the same key the later store's record is returned whole
— insert-or-replace, no merge. -/
theorem cache_movie_store_get_roundtrip (c : MediaCache) (m m' : MovieInfo) (ph : String) :
    (c.store_movie m ph).get_movie_by_path_hash ph = .ok (some m) ∧
    ((c.store_movie m' ph).store_movie m ph).get_movie_by_path_hash ph = .ok (some m) := by
  have key : ∀ c₀ : MediaCache, (c₀.store_movie m ph).get_movie_by_path_hash ph =
      .ok (some m) := by
    intro c₀
    unfold MediaCache.store_movie MediaCache.get_movie_by_path_hash
    simp only [List.filter_append, filter_not_filter, List.nil_append]
    simp [List.filter_cons, movieInfo_roundtrip, List.findSome?_cons]
  exact ⟨key c, key _⟩

/-- C9: a movie or episode cache lookup on a key that no stored row
carries returns `Ok(None)` rather than an error, and a lookup whose
stored payloads all fail to deserialize also returns `Ok(None)`. -/
theorem cache_miss_and_corruption_are_not_errors (c : MediaCache) (ph sn : String)
    (season episode : Nat) :
    ((∀ r ∈ c.movies, r.path_hash ≠ ph) →
      c.get_movie_by_path_hash ph = .ok none) ∧
    ((∀ r ∈ c.movies, r.path_hash = ph → deserializeMovieInfo r.json_data = none) →
      c.get_movie_by_path_hash ph = .ok none) ∧
    ((∀ r ∈ c.tv_episodes, ¬(r.series_name = sn ∧ r.season = season ∧ r.episode = episode)) →
      c.get_tv_episode sn season episode = .ok none) ∧
    ((∀ r ∈ c.tv_episodes, r.series_name = sn → r.season = season → r.episode = episode →
        deserializeEpisodeData r.json_data = none) →
      c.get_tv_episode sn season episode = .ok none) := by
  refine ⟨?_, ?_, ?_, ?_⟩
  · intro h
    unfold MediaCache.get_movie_by_path_hash
    rw [findSome_none]
    intro r hr
    rw [List.mem_filter] at hr
    exact absurd (by simpa using hr.2) (h r hr.1)
  · intro h
    unfold MediaCache.get_movie_by_path_hash
    rw [findSome_none]
    intro r hr
    rw [List.mem_filter] at hr
    exact h r hr.1 (by simpa using hr.2)
  · intro h
    unfold MediaCache.get_tv_episode
    rw [findSome_none]
    intro r hr
    rw [List.mem_filter] at hr
    exact absurd (by simpa [and_assoc] using hr.2) (h r hr.1)
  · intro h
    unfold MediaCache.get_tv_episode
    rw [findSome_none]
    intro r hr
    rw [List.mem_filter] at hr
    have h2 := hr.2
    simp only [Bool.and_eq_true, beq_iff_eq] at h2
    exact h r hr.1 h2.1.1 h2.1.2 h2.2

/-- Witness for C9: on the sample cache, a movie lookup under the
never-stored key `"k2"` and a lookup under `"k1"` — whose only row has
an unusable payload — both return `Ok(None)`, and likewise for episode
lookups. -/
theorem cache_miss_and_corruption_witness :
    corruptSampleCache.get_movie_by_path_hash "k2" = .ok none ∧
    corruptSampleCache.get_movie_by_path_hash "k1" = .ok none ∧
    corruptSampleCache.get_tv_episode "zz" 9 9 = .ok none ∧
    corruptSampleCache.get_tv_episode "s" 1 2 = .ok none :=
  ⟨(cache_miss_and_corruption_are_not_errors corruptSampleCache "k2" "zz" 9 9).1 (by decide),
   (cache_miss_and_corruption_are_not_errors corruptSampleCache "k1" "zz" 9 9).2.1 (by decide),
   (cache_miss_and_corruption_are_not_errors corruptSampleCache "k1" "zz" 9 9).2.2.1 (by decide),
   (cache_miss_and_corruption_are_not_errors corruptSampleCache "k1" "s" 1 2).2.2.2 (by decide)⟩

/-- Membership in a depth-0 walk step pins the path length. -/
theorem mem_walkEntries_zero (cur : MPath) (e : FsEntry) (pe : MPath × Bool)
    (h : pe ∈ walkEntries 0 cur e) : pe.1.length = cur.length + 1 := by
  cases e with
  | file n =>
    simp only [walkEntries, List.mem_singleton] at h
    subst h
    simp
  | dir n ch =>
    simp only [walkEntries, List.mem_singleton] at h
    subst h
    simp

/-- Membership in a depth-1 walk step bounds the path length. -/
theorem mem_walkEntries_one (cur : MPath) (e : FsEntry) (pe : MPath × Bool)
    (h : pe ∈ walkEntries 1 cur e) : pe.1.length ≤ cur.length + 2 := by
  cases e with
  | file n =>
    simp only [walkEntries, List.mem_singleton] at h
    subst h
    simp
  | dir n ch =>
    simp only [walkEntries, List.mem_cons] at h
    rcases h with h | h
    · subst h; simp
    · rw [List.mem_flatMap] at h
      obtain ⟨e', _, he'⟩ := h
      have := mem_walkEntries_zero (cur ++ [n]) e' pe he'
      simp only [List.length_append, List.length_cons, List.length_nil] at this
      omega

/-- C10: every path the movie scan returns has extension exactly the
lowercase string `"mp4"` and lies at depth at most 2 below the scanned
root; the other video extensions (which the TV walker's `is_video_file`
accepts, case-insensitively) are therefore all excluded, silently. -/
theorem scan_folders_mp4_only :
    (∀ (basepath : MPath) (children : List FsEntry) (p : MPath),
      p ∈ scan_folders basepath children →
        extensionOf p = some (strOf "mp4") ∧ p.length ≤ basepath.length + 2) ∧
    (∀ e ∈ [strOf "mkv", strOf "avi", strOf "mov", strOf "wmv", strOf "flv", strOf "webm"],
      is_video_file [strOf "clip." ++ e] = true ∧ ¬e = strOf "mp4") ∧
    is_video_file [strOf "clip.MKV"] = true ∧
    (∀ (basepath : MPath) (children : List FsEntry) (p : MPath),
      p ∈ scan_folders basepath children → ¬extensionOf p = some (strOf "mkv")) := by
  have main : ∀ (basepath : MPath) (children : List FsEntry) (p : MPath),
      p ∈ scan_folders basepath children →
        extensionOf p = some (strOf "mp4") ∧ p.length ≤ basepath.length + 2 := by
    intro basepath children p hp
    unfold scan_folders at hp
    rw [List.mem_map] at hp
    obtain ⟨pe, hpe, hpeq⟩ := hp
    rw [List.mem_filter] at hpe
    obtain ⟨hmem, hcond⟩ := hpe
    simp only [Bool.and_eq_true, beq_iff_eq] at hcond
    subst hpeq
    refine ⟨hcond.2, ?_⟩
    rcases List.mem_cons.mp hmem with h | h
    · subst h
      simp at hcond
    · rw [List.mem_flatMap] at h
      obtain ⟨e, _, he⟩ := h
      exact mem_walkEntries_one basepath e pe he
  refine ⟨main, by decide, by decide, ?_⟩
  intro basepath children p hp
  rw [(main basepath children p hp).1]
  decide

/-- Witness for C10: in the sample movie folder the depth-1 file
`"a.mp4"` is returned and its extension is `"mp4"`; the `.mkv` sibling
is accepted by the TV walker's extension test but excluded here. -/
theorem scan_folders_mp4_only_witness :
    [strOf "base", strOf "a.mp4"] ∈ scan_folders [strOf "base"] sampleMovieEntries ∧
    extensionOf [strOf "base", strOf "a.mp4"] = some (strOf "mp4") ∧
    is_video_file [strOf "clip." ++ strOf "mkv"] = true ∧ ¬strOf "mkv" = strOf "mp4" := by
  have hmem : [strOf "base", strOf "a.mp4"] ∈ scan_folders [strOf "base"] sampleMovieEntries := by
    decide
  exact ⟨hmem,
    (scan_folders_mp4_only.1 [strOf "base"] sampleMovieEntries [strOf "base", strOf "a.mp4"]
      hmem).1,
    scan_folders_mp4_only.2.1 (strOf "mkv") (by decide)⟩
